import Mathlib

/-!
# Verification of `tools/run_coverage.py`

A shallow embedding of the coverage pipeline driver `tools/run_coverage.py`.
The script is a sequential orchestration of external processes; we embed it
as a pure function from a `Config` (the parsed command-line arguments the
claims depend on) and an `Env` (the outcomes of the external effects: which
stale profile files exist and whether their deletion succeeds, whether
`ctest` is found and succeeds, which `.profraw` files the test run produced,
whether the merge/export/show tools succeed, and the exported totals) to a
trace of performed actions together with an exit outcome.  Python floats are
idealised as rationals (`ℚ`); the `{x:.2f}` format is modelled by
round-half-to-even at two decimals.  Exceptions that `main` does not catch
(`RuntimeError`, `subprocess.CalledProcessError`) are modelled as the
`Except.error` outcome; a normal `return n` is `Except.ok n`.
-/

namespace RunCoverage

/-- The ASCII whitespace characters stripped by Python's `str.strip()`. -/
def isPyWhitespace (c : Char) : Bool :=
  c = ' ' || c = '\t' || c = '\n' || c = '\r' || c = '\x0b' || c = '\x0c'

/-- Python `config.strip()`: remove leading and trailing whitespace. -/
def pyStrip (s : String) : String :=
  String.mk (((s.toList.dropWhile isPyWhitespace).reverse.dropWhile isPyWhitespace).reverse)

/-- Python `"<" in cfg or ">" in cfg`. -/
def containsAngle (s : String) : Bool :=
  decide ('<' ∈ s.toList) || decide ('>' ∈ s.toList)

/-- The `ctest` command line built by `_run_ctests` (run_coverage.py:54-66):
strip the configuration, blank it if it contains `<`/`>`, and append
`-C cfg` only when the result is non-empty and not `"."`. -/
def ctestCommand (ctest : String) (config : String) : List String :=
  let cfg0 := pyStrip config
  let cfg := if containsAngle cfg0 then "" else cfg0
  if cfg ≠ "" ∧ cfg ≠ "." then [ctest, "--output-on-failure", "-C", cfg]
  else [ctest, "--output-on-failure"]

/-- Round the fraction `n / d` (for `d > 0`) to the nearest integer, ties
to the even integer (the rounding used by Python's fixed-point float
formatting).  `Int.fdiv` is floor division, so `0 ≤ r < d`. -/
def roundHalfEvenScaled (n d : ℤ) : ℤ :=
  let f := Int.fdiv n d
  let r := n - f * d
  if 2 * r < d then f
  else if d < 2 * r then f + 1
  else if f % 2 = 0 then f else f + 1

/-- Two-digit zero-padded rendering of a remainder below 100. -/
def pad2 (n : ℕ) : String :=
  if n < 10 then "0" ++ toString n else toString n

/-- Python's `f"{q:.2f}"`: fixed-point with exactly two decimals, i.e.
`q * 100` rounded half-to-even.  Since `q * 100 = (q.num * 100) / q.den`
and the scaled rounding needs no reduced fraction, it is computed on the
numerator and denominator directly. -/
def fmt2 (q : ℚ) : String :=
  let n := roundHalfEvenScaled (q.num * 100) (q.den : ℤ)
  let sign := if n < 0 then "-" else ""
  sign ++ toString (n.natAbs / 100) ++ "." ++ pad2 (n.natAbs % 100)

/-- The four lines built by `_write_report` (run_coverage.py:150-157). -/
def reportLines (linePct funcPct regionPct : ℚ) : List String :=
  ["Sparkle coverage summary",
   "Line coverage    : " ++ fmt2 linePct ++ "%",
   "Function coverage: " ++ fmt2 funcPct ++ "%",
   "Region coverage  : " ++ fmt2 regionPct ++ "%"]

/-- Python `"\n".join`. -/
def joinLines : List String → String
  | [] => ""
  | [l] => l
  | l :: ls => l ++ "\n" ++ joinLines ls

/-- The full text written by `_write_report`: the joined lines plus a
trailing newline. -/
def reportText (linePct funcPct regionPct : ℚ) : String :=
  joinLines (reportLines linePct funcPct regionPct) ++ "\n"

/-- Number of newline characters in a string: a newline-terminated text of
`k` lines contains exactly `k` newlines. -/
def newlineCount (s : String) : ℕ :=
  s.toList.count '\n'

/-- A file system as a partial map from paths to file contents. -/
abbrev FS : Type := String → Option String

/-- `Path.write_text`: overwrite (or create) the file at `path`. -/
def writeText (fs : FS) (path content : String) : FS :=
  fun p => if p = path then some content else fs p

/-- `_write_report(output_path, line, func, region)` acting on a file
system. -/
def writeReportFile (fs : FS) (path : String) (linePct funcPct regionPct : ℚ) : FS :=
  writeText fs path (reportText linePct funcPct regionPct)

/-- The epsilon tolerance of the threshold gate (run_coverage.py:235). -/
def epsilon : ℚ := 1 / 1000000

/-- The gate condition `threshold > 0.0 and line_pct + 1e-6 < threshold`. -/
def thresholdFails (threshold linePct : ℚ) : Bool :=
  decide (0 < threshold) && decide (linePct + epsilon < threshold)

/-- Exit status produced by the final threshold gate of `main`. -/
def gateExit (threshold linePct : ℚ) : ℕ :=
  if thresholdFails threshold linePct then 1 else 0

/-- The three totals extracted from the `llvm-cov export` JSON. -/
structure Totals where
  line : ℚ
  func : ℚ
  region : ℚ
  deriving DecidableEq

/-- The command-line arguments the claims depend on. -/
structure Config where
  config : String
  threshold : ℚ
  output : String
  htmlDir : Option String
  docsDir : Option String
  projectName : String
  deriving DecidableEq

deriving instance DecidableEq for Except

/-- Outcomes of the external effects encountered during one run. -/
structure Env where
  /-- Pre-existing files matching `sparkle-*.profraw`, with whether their
  `unlink` succeeds. -/
  staleProfiles : List (String × Bool)
  /-- `shutil.which("ctest")`. -/
  ctestPath : Option String
  /-- Whether the `ctest` invocation exits zero. -/
  ctestOk : Bool
  /-- The `sparkle-*.profraw` files present after the test run. -/
  profrawFiles : List String
  /-- Whether `sparkle.profdata` exists before the merge. -/
  profdataExists : Bool
  /-- Whether `llvm-profdata merge` exits zero. -/
  mergeOk : Bool
  /-- `llvm-cov export`: parsed totals on success, captured
  (stdout, stderr) on a non-zero exit. -/
  exportRes : Except (String × String) Totals
  /-- `llvm-cov show`: `()` on success, captured (stdout, stderr) on a
  non-zero exit. -/
  htmlRes : Except (String × String) Unit
  deriving DecidableEq

/-- Observable actions performed by the pipeline, in order. -/
inductive Action where
  /-- An `unlink` attempt on a stale raw profile, and whether it succeeded. -/
  | deleteProfile (file : String) (ok : Bool)
  /-- A message printed to standard error. -/
  | warn (msg : String)
  /-- A message printed to standard output. -/
  | info (msg : String)
  /-- Removal of a pre-existing `sparkle.profdata`. -/
  | deleteProfdata
  /-- The `ctest` invocation with its full command line. -/
  | runCtests (cmd : List String)
  /-- The `llvm-profdata merge` invocation. -/
  | mergeProfiles (inputs : List String) (output : String)
  /-- The `llvm-cov export --summary-only` invocation. -/
  | exportSummary
  /-- `_write_report`: the summary text written to the output path. -/
  | writeReport (path : String) (content : String)
  /-- `_generate_html_report` into the given directory. -/
  | generateHtml (dir : String)
  /-- The recursive copy of the HTML tree into the docs directory. -/
  | copyDocs (src : String) (dst : String)
  deriving DecidableEq

/-- Uncaught Python exceptions that abort `main`. -/
inductive PyError where
  | runtimeError (msg : String)
  | calledProcessError (cmd : String)
  deriving DecidableEq

/-- `_clean_existing_profiles` (run_coverage.py:46-51): attempt to unlink
every matching file; a failed deletion only prints a warning. -/
def cleanExistingProfiles : List (String × Bool) → List Action
  | [] => []
  | (f, ok) :: rest =>
    (if ok then [Action.deleteProfile f true]
     else [Action.deleteProfile f false,
           Action.warn ("[coverage] Warning: unable to remove " ++ f)])
    ++ cleanExistingProfiles rest

/-- Diagnostic emitted when no `.profraw` files were produced. -/
def noProfrawMsg : String :=
  "[coverage] No .profraw files were generated; check instrumentation settings."

/-- Warning emitted when `--docs-dir` is given without `--html-dir`. -/
def docsWithoutHtmlMsg : String :=
  "[coverage] docs-dir specified without html-dir; skipping docs copy."

/-- The threshold-violation diagnostic of run_coverage.py:236-239. -/
def violationMsg (threshold linePct : ℚ) : String :=
  "[coverage] Coverage threshold violation: " ++ fmt2 linePct
    ++ "% < required " ++ fmt2 threshold ++ "%"

/-- `_export_summary`'s failure handler: report, then echo the captured
streams (each only when non-empty) to standard error. -/
def exportFailureEcho (out err : String) : List Action :=
  [Action.warn "[coverage] llvm-cov export failed."]
  ++ (if out = "" then [] else [Action.warn out])
  ++ (if err = "" then [] else [Action.warn err])

/-- `_generate_html_report`'s failure handler, mirroring `_export_summary`'s. -/
def htmlFailureEcho (out err : String) : List Action :=
  [Action.warn "[coverage] llvm-cov show failed."]
  ++ (if out = "" then [] else [Action.warn out])
  ++ (if err = "" then [] else [Action.warn err])

/-- The three coverage figures printed to standard output by `main`. -/
def summaryInfos (t : Totals) : List Action :=
  [Action.info ("[coverage] Line coverage    : " ++ fmt2 t.line ++ "%"),
   Action.info ("[coverage] Function coverage: " ++ fmt2 t.func ++ "%"),
   Action.info ("[coverage] Region coverage  : " ++ fmt2 t.region ++ "%")]

/-- The HTML/docs stage of `main` (run_coverage.py:208-232): returns its
actions and whether it aborted (a failing `llvm-cov show` raises). -/
def htmlPhase (cfg : Config) (env : Env) : List Action × Bool :=
  match cfg.htmlDir with
  | some hd =>
    match env.htmlRes with
    | .ok _ =>
      let base := [Action.generateHtml hd,
                   Action.info ("[coverage] HTML report generated at: " ++ hd)]
      match cfg.docsDir with
      | some dd =>
        (base ++ [Action.copyDocs hd dd,
                  Action.info ("[coverage] Documentation copy stored at: " ++ dd)], false)
      | none => (base, false)
    | .error (out, err) => ([Action.generateHtml hd] ++ htmlFailureEcho out err, true)
  | none =>
    match cfg.docsDir with
    | some _ => ([Action.warn docsWithoutHtmlMsg], false)
    | none => ([], false)

/-- Actions of the final threshold gate (run_coverage.py:234-242). -/
def gateActions (threshold linePct : ℚ) : List Action :=
  if thresholdFails threshold linePct then [Action.warn (violationMsg threshold linePct)]
  else []

/-- `main` after a successful `llvm-cov export`: print and write the
report, run the optional HTML/docs stage, then apply the threshold gate. -/
def afterExport (cfg : Config) (t : Totals) (env : Env) : List Action × Except PyError ℕ :=
  let reportActs := summaryInfos t
    ++ [Action.writeReport cfg.output (reportText t.line t.func t.region)]
  let h := htmlPhase cfg env
  if h.2 then (reportActs ++ h.1, .error (.calledProcessError "llvm-cov show"))
  else (reportActs ++ h.1 ++ gateActions cfg.threshold t.line,
        .ok (gateExit cfg.threshold t.line))

/-- `main` after the test run (run_coverage.py:184-205): bail out with exit
code 1 when no raw profiles exist, otherwise remove a stale profile
database, merge, and export. -/
def afterTests (cfg : Config) (env : Env) : List Action × Except PyError ℕ :=
  if env.profrawFiles.isEmpty then
    ([Action.warn noProfrawMsg], .ok 1)
  else
    let pre := (if env.profdataExists then [Action.deleteProfdata] else [])
      ++ [Action.mergeProfiles env.profrawFiles "sparkle.profdata"]
    if env.mergeOk then
      match env.exportRes with
      | .error (out, err) =>
        (pre ++ [Action.exportSummary] ++ exportFailureEcho out err,
         .error (.calledProcessError "llvm-cov export"))
      | .ok t =>
        let rest := afterExport cfg t env
        (pre ++ [Action.exportSummary] ++ rest.1, rest.2)
    else (pre, .error (.calledProcessError "llvm-profdata merge"))

/-- `main` after the stale-profile cleanup: `_run_ctests` raises when
`ctest` is missing or fails, otherwise the pipeline continues. -/
def afterCleanup (cfg : Config) (env : Env) : List Action × Except PyError ℕ :=
  match env.ctestPath with
  | none => ([], .error (.runtimeError "ctest executable not found in PATH."))
  | some ctest =>
    let cmd := ctestCommand ctest cfg.config
    if env.ctestOk then
      let rest := afterTests cfg env
      (Action.runCtests cmd :: rest.1, rest.2)
    else ([Action.runCtests cmd], .error (.calledProcessError "ctest"))

/-- `main` (run_coverage.py:160-243): cleanup, then the rest of the
pipeline.  The first component is the ordered trace of performed actions,
the second the exit outcome. -/
def mainRun (cfg : Config) (env : Env) : List Action × Except PyError ℕ :=
  (cleanExistingProfiles env.staleProfiles ++ (afterCleanup cfg env).1,
   (afterCleanup cfg env).2)

/-- The summary artifact as one reading of the claim describes it: exactly
three lines, one per percentage, two decimals, no header.  Modelled from
the claim's words, for comparison with the `reportText` the code writes. -/
def claimedThreeLineReport (linePct funcPct regionPct : ℚ) : String :=
  "Line coverage    : " ++ fmt2 linePct ++ "%" ++ "\n"
  ++ "Function coverage: " ++ fmt2 funcPct ++ "%" ++ "\n"
  ++ "Region coverage  : " ++ fmt2 regionPct ++ "%" ++ "\n"

/-- A file system with no files, for concrete instantiations. -/
def emptyFS : FS := fun _ => none

/-- Pipeline steps that follow raw-profile collection: stale-database
removal, merge, export, report writing, HTML generation, docs copy. -/
def isPostCollectStep : Action → Bool
  | Action.deleteProfdata => true
  | Action.mergeProfiles _ _ => true
  | Action.exportSummary => true
  | Action.writeReport _ _ => true
  | Action.generateHtml _ => true
  | Action.copyDocs _ _ => true
  | _ => false

/-- Recognises the docs-copy action. -/
def isCopyDocs : Action → Bool
  | Action.copyDocs _ _ => true
  | _ => false

/-- Recognises the report-writing action. -/
def isWriteReport : Action → Bool
  | Action.writeReport _ _ => true
  | _ => false

/-- A minimal configuration for concrete instantiations. -/
def baseConfig : Config :=
  { config := "", threshold := 0, output := "coverage-summary.txt",
    htmlDir := none, docsDir := none, projectName := "Sparkle" }

/-- An environment for a fully successful run, for concrete
instantiations. -/
def baseEnv : Env :=
  { staleProfiles := [], ctestPath := some "ctest", ctestOk := true,
    profrawFiles := ["sparkle-1.profraw"], profdataExists := false,
    mergeOk := true, exportRes := .ok ⟨50, 60, 70⟩, htmlRes := .ok () }

/-- A configuration with a docs directory but no HTML directory. -/
def docsOnlyConfig : Config := { baseConfig with docsDir := some "docs" }

/-- A configuration whose 100% threshold the measured coverage of `baseEnv`
violates, with HTML and docs directories configured. -/
def gateFailConfig : Config :=
  { baseConfig with threshold := 100, htmlDir := some "html", docsDir := some "docs" }

/-- An environment in which the test run produced no raw profiles. -/
def noProfrawEnv : Env := { baseEnv with profrawFiles := [] }

/-- An environment with two stale raw profiles, one of which cannot be
deleted. -/
def staleEnv : Env :=
  { baseEnv with staleProfiles := [("sparkle-1.profraw", true), ("sparkle-2.profraw", false)] }

/-- An environment in which `llvm-cov export` fails with captured output. -/
def exportFailEnv : Env :=
  { baseEnv with exportRes := .error ("export-stdout", "export-stderr") }

/-! ## Lemmas -/

lemma thresholdFails_iff (t p : ℚ) :
    thresholdFails t p = true ↔ 0 < t ∧ p + epsilon < t := by
  simp [thresholdFails]

lemma gateExit_eq_one_iff (t p : ℚ) :
    gateExit t p = 1 ↔ thresholdFails t p = true := by
  cases h : thresholdFails t p <;> simp [gateExit, h]

lemma mem_dropWhile_of_mem {α : Type} (p : α → Bool) (l : List α) (x : α)
    (hx : x ∈ l) (hp : p x = false) : x ∈ l.dropWhile p := by
  induction l with
  | nil => simp at hx
  | cons a t ih =>
    rw [List.dropWhile_cons]
    by_cases ha : p a = true
    · rw [if_pos ha]
      rcases List.mem_cons.mp hx with h | h
      · subst h; rw [hp] at ha; simp at ha
      · exact ih h
    · rw [if_neg ha]
      exact hx

lemma mem_pyStrip {c : Char} {s : String} (hc : c ∈ s.toList)
    (hw : isPyWhitespace c = false) : c ∈ (pyStrip s).toList := by
  have h1 := mem_dropWhile_of_mem isPyWhitespace s.toList c hc hw
  have h2 := List.mem_reverse.mpr h1
  have h3 := mem_dropWhile_of_mem isPyWhitespace _ c h2 hw
  exact List.mem_reverse.mpr h3

lemma cleanExistingProfiles_shape (stale : List (String × Bool)) :
    ∀ a ∈ cleanExistingProfiles stale,
      (∃ f ok, a = Action.deleteProfile f ok) ∨ ∃ m, a = Action.warn m := by
  induction stale with
  | nil => intro a ha; simp [cleanExistingProfiles] at ha
  | cons fb rest ih =>
    intro a ha
    obtain ⟨f, ok⟩ := fb
    cases ok
    · simp [cleanExistingProfiles] at ha
      rcases ha with ha | ha | ha
      · exact Or.inl ⟨f, false, ha⟩
      · exact Or.inr ⟨_, ha⟩
      · exact ih a ha
    · simp [cleanExistingProfiles] at ha
      rcases ha with ha | ha
      · exact Or.inl ⟨f, true, ha⟩
      · exact ih a ha

lemma deleteProfile_mem_clean (stale : List (String × Bool)) (f : String) (ok : Bool)
    (h : (f, ok) ∈ stale) :
    Action.deleteProfile f ok ∈ cleanExistingProfiles stale := by
  induction stale with
  | nil => simp at h
  | cons fb rest ih =>
    obtain ⟨g, gok⟩ := fb
    rcases List.mem_cons.mp h with h1 | h1
    · rw [Prod.mk.injEq] at h1
      obtain ⟨rfl, rfl⟩ := h1
      cases ok <;> simp [cleanExistingProfiles]
    · have hmem := ih h1
      cases gok <;> simp [cleanExistingProfiles] <;> tauto

lemma warn_mem_clean (stale : List (String × Bool)) (f : String)
    (h : (f, false) ∈ stale) :
    Action.warn ("[coverage] Warning: unable to remove " ++ f)
      ∈ cleanExistingProfiles stale := by
  induction stale with
  | nil => simp at h
  | cons fb rest ih =>
    obtain ⟨g, gok⟩ := fb
    rcases List.mem_cons.mp h with h1 | h1
    · rw [Prod.mk.injEq] at h1
      obtain ⟨rfl, rfl⟩ := h1
      simp [cleanExistingProfiles]
    · have hmem := ih h1
      cases gok <;> simp [cleanExistingProfiles] <;> tauto

lemma eq_of_mem_ite_singleton {α : Type} {a x : α} {c : Prop} [Decidable c]
    (h : a ∈ (if c then [x] else [])) : a = x := by
  split at h
  · simpa using h
  · simp at h

lemma eq_of_mem_ite_singleton' {α : Type} {a x : α} {c : Prop} [Decidable c]
    (h : a ∈ (if c then [] else [x])) : a = x := by
  split at h
  · simp at h
  · simpa using h

lemma exportFailureEcho_shape (out err : String) :
    ∀ a ∈ exportFailureEcho out err, ∃ m, a = Action.warn m := by
  intro a ha
  unfold exportFailureEcho at ha
  rcases List.mem_append.mp ha with h | h
  · rcases List.mem_append.mp h with h | h
    · exact ⟨_, by simpa using h⟩
    · exact ⟨_, eq_of_mem_ite_singleton' h⟩
  · exact ⟨_, eq_of_mem_ite_singleton' h⟩

lemma gateActions_shape (th lp : ℚ) :
    ∀ a ∈ gateActions th lp, a = Action.warn (violationMsg th lp) := by
  intro a ha
  unfold gateActions at ha
  exact eq_of_mem_ite_singleton ha

lemma mainRun_success (cfg : Config) (env : Env) (ctest : String) (t : Totals)
    (h1 : env.ctestPath = some ctest) (h2 : env.ctestOk = true)
    (h3 : env.profrawFiles.isEmpty = false) (h4 : env.mergeOk = true)
    (h5 : env.exportRes = .ok t) (h6 : (htmlPhase cfg env).2 = false) :
    mainRun cfg env
      = (cleanExistingProfiles env.staleProfiles
          ++ Action.runCtests (ctestCommand ctest cfg.config)
          :: ((if env.profdataExists then [Action.deleteProfdata] else [])
            ++ Action.mergeProfiles env.profrawFiles "sparkle.profdata"
            :: Action.exportSummary
            :: (summaryInfos t
              ++ Action.writeReport cfg.output (reportText t.line t.func t.region)
              :: ((htmlPhase cfg env).1 ++ gateActions cfg.threshold t.line))),
        .ok (gateExit cfg.threshold t.line)) := by
  simp [mainRun, afterCleanup, afterTests, afterExport, h1, h2, h3, h4, h5, h6]

lemma mainRun_export_failure (cfg : Config) (env : Env) (ctest out err : String)
    (h1 : env.ctestPath = some ctest) (h2 : env.ctestOk = true)
    (h3 : env.profrawFiles.isEmpty = false) (h4 : env.mergeOk = true)
    (h5 : env.exportRes = .error (out, err)) :
    mainRun cfg env
      = (cleanExistingProfiles env.staleProfiles
          ++ Action.runCtests (ctestCommand ctest cfg.config)
          :: ((if env.profdataExists then [Action.deleteProfdata] else [])
            ++ Action.mergeProfiles env.profrawFiles "sparkle.profdata"
            :: Action.exportSummary
            :: exportFailureEcho out err),
        .error (.calledProcessError "llvm-cov export")) := by
  simp [mainRun, afterCleanup, afterTests, h1, h2, h3, h4, h5]

lemma htmlPhase_no_abort (cfg : Config) (env : Env) (h : env.htmlRes = .ok ()) :
    (htmlPhase cfg env).2 = false := by
  rcases hh : cfg.htmlDir with _ | hd
  · rcases hd2 : cfg.docsDir with _ | dd <;> simp [htmlPhase, hh, hd2]
  · rcases hd2 : cfg.docsDir with _ | dd <;> simp [htmlPhase, hh, hd2, h]

lemma generateHtml_mem_htmlPhase (cfg : Config) (env : Env) (hd : String)
    (h : env.htmlRes = .ok ()) (hh : cfg.htmlDir = some hd) :
    Action.generateHtml hd ∈ (htmlPhase cfg env).1 := by
  rcases hd2 : cfg.docsDir with _ | dd <;> simp [htmlPhase, hh, hd2, h]

lemma copyDocs_mem_htmlPhase (cfg : Config) (env : Env) (hd dd : String)
    (h : env.htmlRes = .ok ()) (hh : cfg.htmlDir = some hd)
    (hd2 : cfg.docsDir = some dd) :
    Action.copyDocs hd dd ∈ (htmlPhase cfg env).1 := by
  simp [htmlPhase, hh, hd2, h]

/-! ## Claim theorems -/

/-- C1: the threshold gate exits with status 1 exactly when the configured
threshold is positive and the measured line percentage plus the 1e-6
epsilon is still below it; in particular, for threshold 85.0 a measured
84.9999995 passes, 84.99 fails, and a zero or negative threshold always
yields success. -/
theorem C1_threshold_gate :
    (∀ threshold linePct : ℚ,
      gateExit threshold linePct = 1 ↔ 0 < threshold ∧ linePct + epsilon < threshold)
    ∧ gateExit 85 (Rat.divInt 849999995 10000000) = 0
    ∧ gateExit 85 (Rat.divInt 8499 100) = 1
    ∧ (∀ threshold linePct : ℚ, threshold ≤ 0 → gateExit threshold linePct = 0) := by
  refine ⟨?_, ?_, ?_, ?_⟩
  · intro t p
    rw [gateExit_eq_one_iff, thresholdFails_iff]
  · norm_num [gateExit, thresholdFails, epsilon, Rat.divInt_eq_div]
  · norm_num [gateExit, thresholdFails, epsilon, Rat.divInt_eq_div]
  · intro t p h
    have : ¬ (0:ℚ) < t := not_lt.mpr h
    simp [gateExit, thresholdFails, this]

/-- Witness for C1 at threshold 0 (gate disabled) and at threshold 85 with
measured 84.99 (gate fails). -/
theorem C1_threshold_gate_witness :
    gateExit 0 (Rat.divInt 8499 100) = 0 ∧ gateExit 85 (Rat.divInt 8499 100) = 1 :=
  ⟨C1_threshold_gate.2.2.2 0 (Rat.divInt 8499 100) le_rfl, C1_threshold_gate.2.2.1⟩

/-- C3: a configuration value containing an angle bracket is treated as
empty, so the `ctest` command line carries no `-C` flag at all. -/
theorem C3_angle_bracket_defanged (ctest config : String)
    (h : '<' ∈ config.toList ∨ '>' ∈ config.toList) :
    ctestCommand ctest config = [ctest, "--output-on-failure"] := by
  have hangle : containsAngle (pyStrip config) = true := by
    rcases h with h | h
    · have hm := mem_pyStrip h (by decide)
      simp only [containsAngle, Bool.or_eq_true, decide_eq_true_eq]
      exact Or.inl hm
    · have hm := mem_pyStrip h (by decide)
      simp only [containsAngle, Bool.or_eq_true, decide_eq_true_eq]
      exact Or.inr hm
  simp [ctestCommand, hangle]

/-- Witness for C3 on the literal generator-expression placeholder. -/
theorem C3_angle_bracket_defanged_witness :
    ctestCommand "ctest" "$<CONFIG>" = ["ctest", "--output-on-failure"] :=
  C3_angle_bracket_defanged "ctest" "$<CONFIG>" (Or.inl (by decide))

/-- C9: the `-C` flag is omitted whenever the stripped configuration is
empty or `"."` (beyond the angle-bracket defanging), and any value passed
to `-C` is exactly the stripped configuration, which is then non-empty and
not `"."`. -/
theorem C9_config_normalisation :
    ∀ ctest config : String,
      ((pyStrip config = "" ∨ pyStrip config = ".") →
        ctestCommand ctest config = [ctest, "--output-on-failure"])
      ∧ (ctestCommand ctest config = [ctest, "--output-on-failure"]
         ∨ (ctestCommand ctest config
              = [ctest, "--output-on-failure", "-C", pyStrip config]
            ∧ pyStrip config ≠ "" ∧ pyStrip config ≠ ".")) := by
  intro ctest config
  constructor
  · intro h
    by_cases ha : containsAngle (pyStrip config) = true
    · simp [ctestCommand, ha]
    · rcases h with h | h <;> simp [ctestCommand, ha, h]
  · by_cases ha : containsAngle (pyStrip config) = true
    · left; simp [ctestCommand, ha]
    · by_cases h1 : pyStrip config = ""
      · left; simp [ctestCommand, ha, h1]
      · by_cases h2 : pyStrip config = "."
        · left; simp [ctestCommand, ha, h2]
        · right; exact ⟨by simp [ctestCommand, ha, h1, h2], h1, h2⟩

/-- Witness for C9: `" . "` strips to `"."` and yields no `-C`; `" Debug "`
strips to `"Debug"` and is passed as given. -/
theorem C9_config_normalisation_witness :
    ctestCommand "ctest" " . " = ["ctest", "--output-on-failure"] :=
  (C9_config_normalisation "ctest" " . ").1 (Or.inr (by decide))

/-- Counterexample to C4 as stated: at percentages 50/60/70 the written
text has four newline-terminated lines (a header plus the three
percentages), not three, and differs from the three-line artifact the
claim describes. -/
theorem C4_three_lines_cex :
    newlineCount (reportText 50 60 70) = 4
    ∧ newlineCount (claimedThreeLineReport 50 60 70) = 3
    ∧ reportText 50 60 70 ≠ claimedThreeLineReport 50 60 70 := by
  refine ⟨by decide, by decide, by decide⟩

/-- C4 (amended): the summary artifact is a plain-text file of four lines —
a fixed header `Sparkle coverage summary` followed by one line per
percentage (line, function, region), each formatted to two decimal
places — written to the configured output path, overwriting any existing
file there and leaving every other path untouched. -/
theorem C4_report_written (fs : FS) (path : String) (l f r : ℚ) :
    writeReportFile fs path l f r path = some (reportText l f r)
    ∧ (∀ p, p ≠ path → writeReportFile fs path l f r p = fs p)
    ∧ reportText l f r
        = "Sparkle coverage summary" ++ "\n"
          ++ "Line coverage    : " ++ fmt2 l ++ "%" ++ "\n"
          ++ "Function coverage: " ++ fmt2 f ++ "%" ++ "\n"
          ++ "Region coverage  : " ++ fmt2 r ++ "%" ++ "\n" := by
  refine ⟨?_, ?_, ?_⟩
  · simp [writeReportFile, writeText]
  · intro p hp
    simp [writeReportFile, writeText, hp]
  · apply String.ext
    simp [reportText, reportLines, joinLines, String.data_append, List.append_assoc]

/-- Witness for C4 (amended): writing over an empty file system stores the
report at the target path and nowhere else. -/
theorem C4_report_written_witness :
    writeReportFile emptyFS "coverage-summary.txt" 50 60 70 "coverage-summary.txt"
      = some (reportText 50 60 70)
    ∧ writeReportFile emptyFS "coverage-summary.txt" 50 60 70 "other.txt" = none :=
  ⟨(C4_report_written emptyFS "coverage-summary.txt" 50 60 70).1,
   (C4_report_written emptyFS "coverage-summary.txt" 50 60 70).2.1 "other.txt" (by decide)⟩

/-- C7: the report writer is deterministic — on any two file systems the
content stored at the output path is the same, namely the pure formatting
`reportText` of the three percentages. -/
theorem C7_report_deterministic (fs₁ fs₂ : FS) (path : String) (l f r : ℚ) :
    writeReportFile fs₁ path l f r path = writeReportFile fs₂ path l f r path
    ∧ writeReportFile fs₁ path l f r path = some (reportText l f r) := by
  constructor <;> simp [writeReportFile, writeText]

/-- C2: when zero raw profile files exist after the test run, the pipeline
returns exit code 1 and its trace contains no merge, stale-database
removal, export, report-writing, HTML-generation or docs-copy step. -/
theorem C2_no_profraw_aborts (cfg : Config) (env : Env) (ctest : String)
    (h1 : env.ctestPath = some ctest) (h2 : env.ctestOk = true)
    (h3 : env.profrawFiles = []) :
    (mainRun cfg env).2 = .ok 1
    ∧ ∀ a ∈ (mainRun cfg env).1, isPostCollectStep a = false := by
  have htr : mainRun cfg env
      = (cleanExistingProfiles env.staleProfiles
          ++ [Action.runCtests (ctestCommand ctest cfg.config), Action.warn noProfrawMsg],
        .ok 1) := by
    simp [mainRun, afterCleanup, afterTests, h1, h2, h3]
  rw [htr]
  refine ⟨rfl, ?_⟩
  intro a ha
  rcases List.mem_append.mp ha with h | h
  · rcases cleanExistingProfiles_shape _ a h with ⟨f, ok, rfl⟩ | ⟨m, rfl⟩ <;> rfl
  · simp at h
    rcases h with h | h <;> subst h <;> rfl

/-- Witness for C2: a concrete run that produced no `.profraw` files. -/
theorem C2_no_profraw_aborts_witness :
    (mainRun baseConfig noProfrawEnv).2 = .ok 1
    ∧ ∀ a ∈ (mainRun baseConfig noProfrawEnv).1, isPostCollectStep a = false :=
  C2_no_profraw_aborts baseConfig noProfrawEnv "ctest" rfl rfl rfl

/-- C5: with a docs directory configured but no HTML directory, a run whose
external tools all succeed completes normally with the exit code of the
threshold gate alone, writes the text report, emits the misconfiguration
warning, and performs no directory copy. -/
theorem C5_docs_without_html (cfg : Config) (env : Env) (ctest dd : String) (t : Totals)
    (h1 : env.ctestPath = some ctest) (h2 : env.ctestOk = true)
    (h3 : env.profrawFiles.isEmpty = false) (h4 : env.mergeOk = true)
    (h5 : env.exportRes = .ok t)
    (h6 : cfg.htmlDir = none) (h7 : cfg.docsDir = some dd) :
    (mainRun cfg env).2 = .ok (gateExit cfg.threshold t.line)
    ∧ Action.writeReport cfg.output (reportText t.line t.func t.region) ∈ (mainRun cfg env).1
    ∧ Action.warn docsWithoutHtmlMsg ∈ (mainRun cfg env).1
    ∧ ∀ a ∈ (mainRun cfg env).1, isCopyDocs a = false := by
  have hphase : htmlPhase cfg env = ([Action.warn docsWithoutHtmlMsg], false) := by
    simp [htmlPhase, h6, h7]
  have htr := mainRun_success cfg env ctest t h1 h2 h3 h4 h5 (by rw [hphase])
  rw [hphase] at htr
  rw [htr]
  refine ⟨rfl, by simp, by simp, ?_⟩
  intro a ha
  rcases List.mem_append.mp ha with h | h
  · rcases cleanExistingProfiles_shape _ a h with ⟨f, ok, rfl⟩ | ⟨m, rfl⟩ <;> rfl
  · rcases List.mem_cons.mp h with rfl | h
    · rfl
    · rcases List.mem_append.mp h with h | h
      · rw [eq_of_mem_ite_singleton h]; rfl
      · rcases List.mem_cons.mp h with rfl | h
        · rfl
        · rcases List.mem_cons.mp h with rfl | h
          · rfl
          · rcases List.mem_append.mp h with h | h
            · simp [summaryInfos] at h
              rcases h with h | h | h <;> subst h <;> rfl
            · rcases List.mem_cons.mp h with rfl | h
              · rfl
              · rcases List.mem_append.mp h with h | h
                · simp at h; subst h; rfl
                · rw [gateActions_shape _ _ a h]; rfl

/-- Witness for C5: a concrete success-path run with `--docs-dir` and no
`--html-dir`. -/
theorem C5_docs_without_html_witness :
    (mainRun docsOnlyConfig baseEnv).2 = .ok 0
    ∧ Action.writeReport "coverage-summary.txt" (reportText 50 60 70)
        ∈ (mainRun docsOnlyConfig baseEnv).1
    ∧ Action.warn docsWithoutHtmlMsg ∈ (mainRun docsOnlyConfig baseEnv).1
    ∧ ∀ a ∈ (mainRun docsOnlyConfig baseEnv).1, isCopyDocs a = false := by
  have h := C5_docs_without_html docsOnlyConfig baseEnv "ctest" "docs" ⟨50, 60, 70⟩
    rfl rfl rfl rfl rfl rfl rfl
  exact ⟨h.1, h.2.1, h.2.2.1, h.2.2.2⟩

/-- C6: every stale raw profile found before the run gets a deletion
attempt, each failed deletion yields only a stderr warning, and the
pipeline continues: the cleanup actions precede everything else, and
whenever `ctest` is found the test invocation follows them immediately,
regardless of deletion failures. -/
theorem C6_cleanup_best_effort (cfg : Config) (env : Env) :
    (∀ f ok, (f, ok) ∈ env.staleProfiles →
      Action.deleteProfile f ok ∈ cleanExistingProfiles env.staleProfiles)
    ∧ (∀ f, (f, false) ∈ env.staleProfiles →
      Action.warn ("[coverage] Warning: unable to remove " ++ f)
        ∈ cleanExistingProfiles env.staleProfiles)
    ∧ (∀ ctest, env.ctestPath = some ctest →
      ∃ rest, (mainRun cfg env).1
        = cleanExistingProfiles env.staleProfiles
          ++ Action.runCtests (ctestCommand ctest cfg.config) :: rest) := by
  refine ⟨fun f ok h => deleteProfile_mem_clean _ f ok h,
          fun f h => warn_mem_clean _ f h, ?_⟩
  intro ctest h
  cases hc : env.ctestOk
  · exact ⟨[], by simp [mainRun, afterCleanup, h, hc]⟩
  · exact ⟨(afterTests cfg env).1, by simp [mainRun, afterCleanup, h, hc]⟩

/-- Witness for C6: a run with one deletable and one undeletable stale
profile. -/
theorem C6_cleanup_best_effort_witness :
    Action.deleteProfile "sparkle-2.profraw" false
      ∈ cleanExistingProfiles staleEnv.staleProfiles
    ∧ Action.warn ("[coverage] Warning: unable to remove " ++ "sparkle-2.profraw")
      ∈ cleanExistingProfiles staleEnv.staleProfiles
    ∧ ∃ rest, (mainRun baseConfig staleEnv).1
        = cleanExistingProfiles staleEnv.staleProfiles
          ++ Action.runCtests (ctestCommand "ctest" baseConfig.config) :: rest := by
  have h := C6_cleanup_best_effort baseConfig staleEnv
  exact ⟨h.1 "sparkle-2.profraw" false (by decide),
         h.2.1 "sparkle-2.profraw" (by decide),
         h.2.2 "ctest" rfl⟩

/-- C8: when `llvm-cov export` exits non-zero, its captured stdout and
stderr are echoed to the pipeline's stderr, the failure is re-raised (the
run aborts with the propagated subprocess error), and no report is
written. -/
theorem C8_export_failure_echo (cfg : Config) (env : Env) (ctest out err : String)
    (h1 : env.ctestPath = some ctest) (h2 : env.ctestOk = true)
    (h3 : env.profrawFiles.isEmpty = false) (h4 : env.mergeOk = true)
    (h5 : env.exportRes = .error (out, err))
    (ho : out ≠ "") (he : err ≠ "") :
    (mainRun cfg env).2 = .error (.calledProcessError "llvm-cov export")
    ∧ Action.warn "[coverage] llvm-cov export failed." ∈ (mainRun cfg env).1
    ∧ Action.warn out ∈ (mainRun cfg env).1
    ∧ Action.warn err ∈ (mainRun cfg env).1
    ∧ ∀ a ∈ (mainRun cfg env).1, isWriteReport a = false := by
  have htr := mainRun_export_failure cfg env ctest out err h1 h2 h3 h4 h5
  rw [htr]
  refine ⟨rfl, by simp [exportFailureEcho], by simp [exportFailureEcho, ho],
          by simp [exportFailureEcho, ho, he], ?_⟩
  intro a ha
  rcases List.mem_append.mp ha with h | h
  · rcases cleanExistingProfiles_shape _ a h with ⟨f, ok, rfl⟩ | ⟨m, rfl⟩ <;> rfl
  · rcases List.mem_cons.mp h with rfl | h
    · rfl
    · rcases List.mem_append.mp h with h | h
      · rw [eq_of_mem_ite_singleton h]; rfl
      · rcases List.mem_cons.mp h with rfl | h
        · rfl
        · rcases List.mem_cons.mp h with rfl | h
          · rfl
          · obtain ⟨m, rfl⟩ := exportFailureEcho_shape out err a h; rfl

/-- Witness for C8: a concrete run whose export step fails with non-empty
captured streams. -/
theorem C8_export_failure_echo_witness :
    (mainRun baseConfig exportFailEnv).2 = .error (.calledProcessError "llvm-cov export")
    ∧ Action.warn "[coverage] llvm-cov export failed." ∈ (mainRun baseConfig exportFailEnv).1
    ∧ Action.warn "export-stdout" ∈ (mainRun baseConfig exportFailEnv).1
    ∧ Action.warn "export-stderr" ∈ (mainRun baseConfig exportFailEnv).1
    ∧ ∀ a ∈ (mainRun baseConfig exportFailEnv).1, isWriteReport a = false := by
  have h := C8_export_failure_echo baseConfig exportFailEnv "ctest"
    "export-stdout" "export-stderr" rfl rfl rfl rfl rfl (by decide) (by decide)
  exact ⟨h.1, h.2.1, h.2.2.1, h.2.2.2.1, h.2.2.2.2⟩

/-- C10: the threshold gate runs last — on a violation the run still exits
through the normal path with code 1, and the trace ends with the violation
message, preceded by the report write and, when configured, the HTML
generation and docs copy. -/
theorem C10_gate_runs_last (cfg : Config) (env : Env) (ctest : String) (t : Totals)
    (h1 : env.ctestPath = some ctest) (h2 : env.ctestOk = true)
    (h3 : env.profrawFiles.isEmpty = false) (h4 : env.mergeOk = true)
    (h5 : env.exportRes = .ok t) (h6 : env.htmlRes = .ok ())
    (hg : thresholdFails cfg.threshold t.line = true) :
    (mainRun cfg env).2 = .ok 1
    ∧ ∃ pre, (mainRun cfg env).1 = pre ++ [Action.warn (violationMsg cfg.threshold t.line)]
        ∧ Action.writeReport cfg.output (reportText t.line t.func t.region) ∈ pre
        ∧ (∀ hd, cfg.htmlDir = some hd → Action.generateHtml hd ∈ pre)
        ∧ (∀ hd dd, cfg.htmlDir = some hd → cfg.docsDir = some dd →
            Action.copyDocs hd dd ∈ pre) := by
  have habort := htmlPhase_no_abort cfg env h6
  have htr := mainRun_success cfg env ctest t h1 h2 h3 h4 h5 habort
  have hgate : gateActions cfg.threshold t.line
      = [Action.warn (violationMsg cfg.threshold t.line)] := by
    simp [gateActions, hg]
  rw [htr]
  constructor
  · simp [gateExit, hg]
  · refine ⟨cleanExistingProfiles env.staleProfiles
      ++ Action.runCtests (ctestCommand ctest cfg.config)
      :: ((if env.profdataExists then [Action.deleteProfdata] else [])
        ++ Action.mergeProfiles env.profrawFiles "sparkle.profdata"
        :: Action.exportSummary
        :: (summaryInfos t
          ++ Action.writeReport cfg.output (reportText t.line t.func t.region)
          :: (htmlPhase cfg env).1)), ?_, by simp, ?_, ?_⟩
    · rw [hgate]; simp
    · intro hd hh
      have := generateHtml_mem_htmlPhase cfg env hd h6 hh
      simp [this]
    · intro hd dd hh hd2
      have := copyDocs_mem_htmlPhase cfg env hd dd h6 hh hd2
      simp [this]

/-- Witness for C10: a concrete run with threshold 100, measured line
coverage 50, and both HTML and docs directories configured. -/
theorem C10_gate_runs_last_witness :
    (mainRun gateFailConfig baseEnv).2 = .ok 1
    ∧ ∃ pre, (mainRun gateFailConfig baseEnv).1 = pre ++ [Action.warn (violationMsg 100 50)]
        ∧ Action.writeReport "coverage-summary.txt" (reportText 50 60 70) ∈ pre
        ∧ Action.generateHtml "html" ∈ pre
        ∧ Action.copyDocs "html" "docs" ∈ pre := by
  have h := C10_gate_runs_last gateFailConfig baseEnv "ctest" ⟨50, 60, 70⟩
    rfl rfl rfl rfl rfl rfl
    (by norm_num [thresholdFails, epsilon, gateFailConfig, baseConfig])
  obtain ⟨he, pre, hpre, hwr, hhtml, hdocs⟩ := h
  exact ⟨he, pre, hpre, hwr, hhtml "html" rfl, hdocs "html" "docs" rfl rfl⟩

end RunCoverage
